import Mathlib

/-
Verification of the go-shopping API gateway request pipeline.

The definitions below are a shallow embedding of the gateway sources:
the middleware chain (recovery, request id stamping, access logging,
bearer-token admission) from api-gateway/internal/middleware, the error
envelope package, the reverse-proxy layer with its ErrorHandler and
ModifyResponse hooks, and the router fallback handlers together with the
route table wired in main.
Strings are modelled over characters; the byte-level operations of the
source (length checks, slicing, splitting on a space) act on ASCII data
in every code path considered here, where byte and character indexing
coincide.  Machine integers do not overflow in any embedded function, so
Nat is used throughout.
-/

namespace GoShopping

/-- A JSON value as used by the gin handlers of the gateway: the embedded
envelopes only ever hold strings and numbers. -/
inductive JVal where
  | s (v : String)
  | n (v : Nat)
deriving DecidableEq

/-- A JSON object, the shape of every gin.H literal in the sources. -/
abbrev JObj := List (String × JVal)

/-- Field lookup in a JSON object, first binding wins. -/
def lookupJ (obj : JObj) (k : String) : Option JVal :=
  (obj.find? (fun p => p.1 == k)).map (fun p => p.2)

/-- Severity of a structured zerolog record. -/
inductive Severity where
  | info
  | warn
  | error
deriving DecidableEq

/-- One structured log record: severity, typed fields, final message. -/
structure LogRecord where
  severity : Severity
  fields : JObj
  msg : String
deriving DecidableEq

/-- An inbound HTTP request as the gin handlers observe it. -/
structure Request where
  method : String
  path : String
  rawQuery : String
  headers : List (String × String)
  clientIP : String
  userAgent : String
deriving DecidableEq

/-- Models c.GetHeader: first value of the header, empty string when the
header is absent. -/
def getHeader (r : Request) (k : String) : String :=
  ((r.headers.find? (fun p => p.1 == k)).map (fun p => p.2)).getD ""

/-- Per-request mutable state threaded through the gin context: the
response writer, response headers, context keys set by c.Set, and the
log sink.  Following the gin responseWriter, writerStatus is initialised
to the default status 200 and writerWritten records whether body bytes
were produced; gin never represents the status as 0. -/
structure GWState where
  writerStatus : Nat
  writerWritten : Bool
  responseBody : JObj
  respHeaders : List (String × String)
  ctxKeys : List (String × String)
  logs : List LogRecord
deriving DecidableEq

/-- The state of a freshly reset gin context: status is the gin default
200 and nothing has been written. -/
def initState : GWState :=
  { writerStatus := 200, writerWritten := false, responseBody := []
    respHeaders := [], ctxKeys := [], logs := [] }

/-- Models c.JSON: records the status code and the serialized object. -/
def cJSON (status : Nat) (obj : JObj) (st : GWState) : GWState :=
  { st with writerStatus := status, writerWritten := true, responseBody := obj }

/-- Models c.Set on the gin context key store. -/
def cSet (k v : String) (st : GWState) : GWState :=
  { st with ctxKeys := (k, v) :: st.ctxKeys }

/-- Models c.Header: sets a response header. -/
def setHeaderResp (k v : String) (st : GWState) : GWState :=
  { st with respHeaders := (k, v) :: st.respHeaders }

/-- Models c.GetString on the context key store. -/
def ctxGetString (st : GWState) (k : String) : String :=
  ((st.ctxKeys.find? (fun p => p.1 == k)).map (fun p => p.2)).getD ""

/-- Reads a response header previously set with c.Header. -/
def respHeaderGet (st : GWState) (k : String) : String :=
  ((st.respHeaders.find? (fun p => p.1 == k)).map (fun p => p.2)).getD ""

/-- Appends one structured record to the log sink. -/
def addLog (sev : Severity) (fields : JObj) (msg : String) (st : GWState) : GWState :=
  { st with logs := st.logs ++ [⟨sev, fields, msg⟩] }

/-- Result of running one request through (part of) the handler chain:
either the handler returned normally, or a Go panic is unwinding; the
state at the moment of the fault is carried along because log and writer
effects performed before the fault survive it. -/
inductive Outcome where
  | ok (st : GWState)
  | panicked (fault : String) (st : GWState)
deriving DecidableEq

/-- A gin handler acting on the per-request state. -/
abbrev Handler := GWState → Outcome

/-- Splits a character list at every occurrence of the separator,
keeping empty fragments, exactly as strings.Split does in Go. -/
def splitChar (sep : Char) : List Char → List (List Char)
  | [] => [[]]
  | c :: rest =>
    let r := splitChar sep rest
    if c = sep then [] :: r
    else
      match r with
      | h :: t => (c :: h) :: t
      | [] => [[c]]

/-- Models strings.Split with a one-character separator. -/
def stringsSplit (s : String) (sep : Char) : List String :=
  (splitChar sep s.data).map (fun l => String.mk l)

/-- Models the Go slice expression s[:n] on ASCII data. -/
def takeChars (n : Nat) (s : String) : String :=
  String.mk (s.data.take n)

/-- The AppError type of the pkg/errors package: status code, public
message, optional public details, and the wrapped internal error plus
captured stack trace, both of which are excluded from serialization by
their json tags. -/
structure AppError where
  code : Nat
  message : String
  details : String
  internal : Option String
  stackTrace : List String
deriving DecidableEq

/-- Models errors.NewInternalError: code 500, no details, wrapping the
underlying fault; WithStack captures a stack trace. -/
def NewInternalError (message : String) (err : Option String) : AppError :=
  { code := 500, message := message, details := "", internal := err
    stackTrace := ["captured stack frames"] }

/-- Models errors.NewUnauthorizedError: code 401, no details. -/
def NewUnauthorizedError (message : String) : AppError :=
  { code := 401, message := message, details := "", internal := none
    stackTrace := ["captured stack frames"] }

/-- An error value reaching errors.ErrorResponse: either an AppError or
any other Go error. -/
inductive GoError where
  | app (e : AppError)
  | generic (msg : String)
deriving DecidableEq

/-- Models errors.ErrorResponse: for an AppError the status is its code
and the body holds the public message and code, plus details when they
are non-empty; the internal error and the stack trace are never part of
the body.  Any other error maps to the generic 500 envelope. -/
def ErrorResponse : GoError → Nat × JObj
  | .app e =>
    (e.code,
      [("error", .s e.message), ("code", .n e.code)]
        ++ (if e.details = "" then [] else [("details", .s e.details)]))
  | .generic _ => (500, [("error", .s "Internal server error"), ("code", .n 500)])

/-- Envelope written by AuthMiddleware when the Authorization header is
missing (or carries an empty value, which c.GetHeader cannot tell apart
from a missing header). -/
def authHeaderRequiredBody : JObj :=
  [("error", .s "Authorization header required"), ("code", .n 401)]

/-- Envelope written by AuthMiddleware when the header does not split
into exactly the two parts Bearer and a token. -/
def authFormatBody : JObj :=
  [("error", .s "Invalid authorization header format"), ("code", .n 401)]

/-- Envelope written by AuthMiddleware when token validation fails. -/
def authInvalidTokenBody : JObj :=
  [("error", .s "Invalid or expired token"), ("code", .n 401)]

/-- The generic 500 envelope of RecoveryMiddleware. -/
def internalErrorBody : JObj :=
  [("error", .s "Internal server error"), ("code", .n 500)]

/-- Body produced by handler.NotFoundHandler, echoing the request path. -/
def notFoundBody (path : String) : JObj :=
  [("error", .s "Endpoint not found"), ("code", .n 404), ("path", .s path)]

/-- Body produced by handler.MethodNotAllowedHandler, echoing the
attempted method and the path. -/
def methodNotAllowedBody (method path : String) : JObj :=
  [("error", .s "Method not allowed"), ("code", .n 405),
   ("method", .s method), ("path", .s path)]

/-- The public endpoint list of middleware.isPublicEndpoint. -/
def publicEndpoints : List String :=
  ["/api/v1/auth/login", "/api/v1/auth/register", "/health"]

/-- Models middleware.isPublicEndpoint: exact path membership. -/
def isPublicEndpoint (path : String) : Bool :=
  publicEndpoints.any (fun e => path == e)

/-- Result of middleware.validateToken.  The Go function slices the
token as tokenString[:8], which panics when the token is shorter than 8
bytes; the panicked constructor makes that implicit bounds check of the
Go runtime explicit so that its unreachability can be proved. -/
inductive TokenResult where
  | ok (userID : String)
  | err (msg : String)
  | panicked
deriving DecidableEq

/-- Models middleware.validateToken: empty tokens and tokens shorter
than 10 are rejected with an unauthorized error; otherwise the user id
is the string user- followed by the first 8 characters of the token.
The slice is guarded by the bounds condition the Go runtime enforces. -/
def validateToken (tokenString jwtSecret : String) : TokenResult :=
  if tokenString = "" then .err (NewUnauthorizedError "Empty token").message
  else if tokenString.length < 10 then
    .err (NewUnauthorizedError "Invalid token format").message
  else if 8 ≤ tokenString.length then .ok ("user-" ++ takeChars 8 tokenString)
  else .panicked

/-- Models middleware.AuthMiddleware for one request: public paths pass
through, a missing header and a malformed header abort with a 401
envelope, a failing token aborts with a 401 envelope after a warning
log, and an admitted request continues with the derived user id stored
in the context. -/
def AuthMiddleware (jwtSecret : String) (r : Request) (next : Handler) : Handler :=
  fun st =>
    if isPublicEndpoint r.path then next st
    else
      let authHeader := getHeader r "Authorization"
      if authHeader = "" then .ok (cJSON 401 authHeaderRequiredBody st)
      else
        let parts := stringsSplit authHeader ' '
        if parts.length != 2 || parts.getD 0 "" != "Bearer" then
          .ok (cJSON 401 authFormatBody st)
        else
          match validateToken (parts.getD 1 "") jwtSecret with
          | .err _ =>
            .ok (cJSON 401 authInvalidTokenBody
              (addLog .warn [("path", .s r.path)] "Invalid token" st))
          | .ok userID => next (cSet "user_id" userID st)
          | .panicked => .panicked "runtime error: slice bounds out of range" st

/-- Placeholder for the bytes returned by runtime debug.Stack, which are
supplied by the Go runtime environment. -/
def debugStack : String := "goroutine 1 [running]: ..."

/-- Models middleware.RecoveryMiddleware: a fault unwinding out of the
downstream chain is logged with full context and converted into a
normal return; the 500 envelope is only written when the gin writer
reports status 0, which is the literal condition of the source. -/
def RecoveryMiddleware (r : Request) (next : Handler) : Handler :=
  fun st =>
    match next st with
    | .ok st1 => .ok st1
    | .panicked fault stp =>
      let st1 := addLog .error
        [("error", .s fault), ("stack", .s debugStack), ("path", .s r.path),
         ("method", .s r.method), ("client_ip", .s r.clientIP),
         ("user_agent", .s r.userAgent)] "Panic recovered" stp
      .ok (if st1.writerStatus = 0 then cJSON 500 internalErrorBody st1 else st1)

/-- Models middleware.RequestIDMiddleware.  genId stands for the string
uuid.New().String() returns for this request; it is consumed only when
the inbound header is empty. -/
def RequestIDMiddleware (genId : String) (r : Request) (next : Handler) : Handler :=
  fun st =>
    let requestID :=
      if getHeader r "X-Request-ID" = "" then genId else getHeader r "X-Request-ID"
    next (setHeaderResp "X-Request-ID" requestID (cSet "request_id" requestID st))

/-- The single access record Logger.GinLogger emits for one request:
method, path with query string when one is present, final status,
client address, user agent, measured latency and correlation id, at
error severity when the final status is at least 400 and info severity
below. -/
def accessRecord (elapsed : Nat) (r : Request) (st1 : GWState) : LogRecord :=
  ⟨if 400 ≤ st1.writerStatus then Severity.error else Severity.info,
    [("method", .s r.method),
     ("path", .s (if r.rawQuery != "" then r.path ++ "?" ++ r.rawQuery else r.path)),
     ("status", .n st1.writerStatus), ("ip", .s r.clientIP),
     ("user_agent", .s r.userAgent), ("latency", .n elapsed),
     ("request_id", .s (ctxGetString st1 "request_id"))],
    "HTTP request"⟩

/-- Models Logger.GinLogger: after the downstream chain returns, the
access record is appended to the log sink.  elapsed stands for the
measured wall-clock latency.  A fault unwinding out of the downstream
chain skips the code after the delegation point, so no record is
emitted for it. -/
def GinLogger (elapsed : Nat) (r : Request) (next : Handler) : Handler :=
  fun st =>
    match next st with
    | .ok st1 => .ok { st1 with logs := st1.logs ++ [accessRecord elapsed r st1] }
    | .panicked fault stp => .panicked fault stp

/-- The global middleware chain of main wired around a route handler:
recovery outermost, then request id stamping, then access logging, then
the authentication gate, then the handler (the upstream proxy for the
protected product routes), run from a freshly reset context. -/
def gatewayChain (genId : String) (elapsed : Nat) (jwtSecret : String)
    (upstream : Handler) (r : Request) : Outcome :=
  RecoveryMiddleware r
    (RequestIDMiddleware genId r
      (GinLogger elapsed r
        (AuthMiddleware jwtSecret r upstream))) initState

/-- Final status of a chain run, none when a fault escaped. -/
def respStatus : Outcome → Option Nat
  | .ok st => some st.writerStatus
  | .panicked _ _ => none

/-- Final response body of a chain run. -/
def respBody : Outcome → Option JObj
  | .ok st => some st.responseBody
  | .panicked _ _ => none

/-- Whether body bytes were written during a chain run. -/
def respWritten : Outcome → Option Bool
  | .ok st => some st.writerWritten
  | .panicked _ _ => none

/-- Log records accumulated during a chain run. -/
def respLogs : Outcome → Option (List LogRecord)
  | .ok st => some st.logs
  | .panicked _ _ => none

/-- The read state of an upstream response body: a fresh body offers its
content, a drained one does not.  io.ReadAll consumes the reader, and
the restore step of ModifyResponse re-creates a fresh one. -/
inductive BodyStream where
  | avail (content : String)
  | consumed
deriving DecidableEq

/-- An HTTP response arriving from the upstream service. -/
structure HResponse where
  status : Nat
  statusText : String
  body : BodyStream
deriving DecidableEq

/-- Models the ModifyResponse hook installed by NewServiceProxy: one
info record for every upstream response; for statuses of at least 400
the body is read in full for an error record and then replaced by a
fresh reader over the same bytes so the client still receives it.  A
failing body read surfaces as an error, which the reverse proxy routes
to the ErrorHandler. -/
def ModifyResponse (targetURL method path : String) (resp : HResponse) :
    Except String (HResponse × List LogRecord) :=
  let infoRec : LogRecord :=
    ⟨.info,
      [("url", .s targetURL), ("method", .s method), ("path", .s path),
       ("status", .n resp.status), ("status_text", .s resp.statusText)],
      "Service response"⟩
  if 400 ≤ resp.status then
    match resp.body with
    | .consumed => .error (NewInternalError "Failed to read error response" none).message
    | .avail content =>
      let errRec : LogRecord :=
        ⟨.error,
          [("error", .s ("service returned error: " ++ resp.statusText)),
           ("url", .s targetURL), ("method", .s method), ("path", .s path),
           ("status_code", .n resp.status), ("response_body", .s content)],
          "Application error"⟩
      .ok ({ resp with body := .avail content }, [infoRec, errRec])
  else .ok (resp, [infoRec])

/-- Models the ErrorHandler installed by NewServiceProxy: one error
record naming the upstream URL, method, path and the underlying fault,
and the normalized service-unavailable envelope built through
ErrorResponse over NewInternalError. -/
def proxyErrorHandler (targetURL method path errMsg : String) :
    (Nat × JObj) × LogRecord :=
  (ErrorResponse (.app (NewInternalError "Service unavailable" (some errMsg))),
    ⟨.error,
      [("error", .s errMsg), ("url", .s targetURL), ("method", .s method),
       ("path", .s path)],
      "Application error"⟩)

/-- Behaviour of the upstream service on the outbound leg: a response
after some delay, an immediate transport failure, or no answer at all. -/
inductive UpstreamBehavior where
  | respond (resp : HResponse) (delay : Nat)
  | unreachable (errMsg : String)
  | hang
deriving DecidableEq

/-- What the client receives from the proxy layer: a relayed upstream
body, or a gateway-built JSON envelope. -/
inductive ClientBody where
  | relay (content : BodyStream)
  | envelope (obj : JObj)
deriving DecidableEq

/-- Observable outcome of one proxied request: final status, client
body, elapsed time on the outbound leg, and the emitted log records. -/
structure ProxyResult where
  status : Nat
  body : ClientBody
  elapsed : Nat
  logs : List LogRecord
deriving DecidableEq

/-- Core dispatch of ServiceProxy.Handler under the request context
deadline: a response arriving within the configured timeout passes
through ModifyResponse and is relayed; a later response is preempted by
the context deadline, and an unreachable or silent upstream likewise
ends in the ErrorHandler.  The elapsed component is the time of the
outbound leg, capped by the deadline that context.WithTimeout enforces. -/
def serviceProxyCore (targetURL : String) (timeout : Nat) (r : Request)
    (ub : UpstreamBehavior) : ProxyResult :=
  match ub with
  | .respond resp delay =>
    if delay ≤ timeout then
      match ModifyResponse targetURL r.method r.path resp with
      | .ok (resp1, recs) =>
        { status := resp1.status, body := .relay resp1.body, elapsed := delay
          logs := recs }
      | .error e =>
        let h := proxyErrorHandler targetURL r.method r.path e
        { status := h.1.1, body := .envelope h.1.2, elapsed := delay, logs := [h.2] }
    else
      let h := proxyErrorHandler targetURL r.method r.path "context deadline exceeded"
      { status := h.1.1, body := .envelope h.1.2, elapsed := timeout, logs := [h.2] }
  | .unreachable e =>
    let h := proxyErrorHandler targetURL r.method r.path e
    { status := h.1.1, body := .envelope h.1.2, elapsed := 0, logs := [h.2] }
  | .hang =>
    let h := proxyErrorHandler targetURL r.method r.path "context deadline exceeded"
    { status := h.1.1, body := .envelope h.1.2, elapsed := timeout, logs := [h.2] }

/-- Models ServiceProxy.Handler: an info record before dispatch, the
core proxied exchange, and a completion record carrying the final
status observed on the writer. -/
def ServiceProxyHandler (targetURL : String) (timeout : Nat) (r : Request)
    (ub : UpstreamBehavior) : ProxyResult :=
  let core := serviceProxyCore targetURL timeout r ub
  { core with
      logs :=
        ⟨.info,
          [("url", .s targetURL), ("method", .s r.method), ("path", .s r.path),
           ("query", .s r.rawQuery)], "Proxying request"⟩
        :: core.logs
        ++ [⟨.info,
              [("url", .s targetURL), ("method", .s r.method),
               ("path", .s r.path), ("status_code", .n core.status),
               ("client_ip", .s r.clientIP)], "Request completed"⟩] }

/-- The route table registered in main: health, the public auth routes,
and the five protected product routes. -/
def routeTable : List (String × String) :=
  [("GET", "/health"),
   ("POST", "/api/v1/auth/register"),
   ("POST", "/api/v1/auth/login"),
   ("GET", "/api/v1/products"),
   ("POST", "/api/v1/products"),
   ("GET", "/api/v1/products/:id"),
   ("PUT", "/api/v1/products/:id"),
   ("DELETE", "/api/v1/products/:id")]

/-- Segment-wise gin route matching: a pattern segment starting with a
colon matches any non-empty path segment, every other segment matches
literally. -/
def segMatch : List String → List String → Bool
  | [], [] => true
  | p :: ps, q :: qs =>
    (p == q || (takeChars 1 p == ":" && q != "")) && segMatch ps qs
  | _, _ => false

/-- Whether a registered path pattern matches a request path. -/
def pathMatches (pattern path : String) : Bool :=
  segMatch (stringsSplit pattern '/') (stringsSplit path '/')

/-- The gin engine flag governing 405 handling.  gin.New() initialises
HandleMethodNotAllowed to false and main never sets it, so the handler
registered with router.NoMethod is unreachable. -/
def HandleMethodNotAllowed : Bool := false

/-- Models handler.NotFoundHandler. -/
def NotFoundHandler (r : Request) : Handler :=
  fun st => .ok (cJSON 404 (notFoundBody r.path) st)

/-- Models handler.MethodNotAllowedHandler. -/
def MethodNotAllowedHandler (r : Request) : Handler :=
  fun st => .ok (cJSON 405 (methodNotAllowedBody r.method r.path) st)

/-- Route dispatch of the gin engine as configured in main: a method and
path match runs the bound handler; otherwise the NoMethod fallback is
consulted only when HandleMethodNotAllowed is set, and every remaining
request falls to the NoRoute fallback. -/
def routerDispatch (r : Request) (matched : Handler) : Handler :=
  fun st =>
    if routeTable.any (fun e => e.1 == r.method && pathMatches e.2 r.path) then
      matched st
    else if HandleMethodNotAllowed
        && routeTable.any (fun e => pathMatches e.2 r.path) then
      MethodNotAllowedHandler r st
    else NotFoundHandler r st

/-- Hexadecimal digit encoding of the Go hex package, lowercase. -/
def hexChar (d : Nat) : Char :=
  if d < 10 then Char.ofNat (48 + d) else Char.ofNat (87 + d)

/-- Big-endian nibble decomposition of a byte sequence, as hex.Encode
walks it. -/
def bytesToNibbles (bs : List Nat) : List Nat :=
  bs.flatMap (fun b => [b / 16, b % 16])

/-- Models uuid.NewRandom over 16 random bytes: byte 6 keeps its low
nibble and receives the version bits 0x40, byte 8 keeps its low six
bits and receives the variant bits 0x80. -/
def uuidV4OfBytes (bs : List Nat) : List Nat :=
  (bs.set 6 ((bs.getD 6 0) % 16 + 64)).set 8 ((bs.getD 8 0) % 64 + 128)

/-- Canonical 8-4-4-4-12 grouping of the 32 hex characters of a UUID. -/
def insertDashes (cs : List Char) : List Char :=
  cs.take 8 ++ '-' :: (cs.drop 8).take 4 ++ '-' :: (cs.drop 12).take 4
    ++ '-' :: (cs.drop 16).take 4 ++ '-' :: cs.drop 20

/-- Models uuid.New().String() as a function of the 16 random bytes the
generator draws: version and variant bits are fixed, then the bytes are
hex-encoded in the canonical dashed form. -/
def uuidString (bs : List Nat) : String :=
  String.mk (insertDashes ((bytesToNibbles (uuidV4OfBytes bs)).map hexChar))

/-- The error responses the gateway itself can originate, one
constructor per source site: the three auth rejections, the two router
fallbacks, the recovery envelope and the upstream-failure envelope.
The fault-carrying constructors record the server-side fault so that
its absence from the client-facing body can be stated. -/
inductive GatewayError where
  | authMissing
  | authFormat
  | authInvalidToken
  | noRoute (path : String)
  | noMethod (method path : String)
  | panicRecovered (fault : String)
  | upstreamFailure (errMsg : String)

/-- Status and body each gateway-originated error response carries, as
produced by the corresponding embedded source definition. -/
def gwErrorResponse : GatewayError → Nat × JObj
  | .authMissing => (401, authHeaderRequiredBody)
  | .authFormat => (401, authFormatBody)
  | .authInvalidToken => (401, authInvalidTokenBody)
  | .noRoute p => (404, notFoundBody p)
  | .noMethod m p => (405, methodNotAllowedBody m p)
  | .panicRecovered _ => (500, internalErrorBody)
  | .upstreamFailure e =>
    ErrorResponse (.app (NewInternalError "Service unavailable" (some e)))

/-- A route handler that returns without touching the state, standing
in for an arbitrary bound handler where the dispatch never reaches it. -/
def idHandler : Handler := fun st => .ok st

/-- A downstream handler that panics before writing any response bytes. -/
def panickingHandler : Handler :=
  fun st => .panicked "runtime error: invalid memory address or nil pointer dereference" st

/-- A plain request to the public health endpoint. -/
def reqHealth : Request :=
  { method := "GET", path := "/health", rawQuery := "", headers := []
    clientIP := "198.51.100.2", userAgent := "Mozilla/5.0" }

/-- A protected-path request with a well-formed ten-plus-character
bearer token. -/
def reqProducts : Request :=
  { method := "GET", path := "/api/v1/products", rawQuery := "page=2"
    headers := [("Authorization", "Bearer 0123456789abcdef")]
    clientIP := "192.0.2.5", userAgent := "integration-test" }

/-- A protected-path request whose Authorization header is present but
carries an empty value. -/
def reqEmptyAuth : Request :=
  { method := "GET", path := "/api/v1/products", rawQuery := ""
    headers := [("Authorization", "")]
    clientIP := "203.0.113.7", userAgent := "curl/8.5.0" }

/-- A protected-path request with the short token of the spec scenario. -/
def reqShortToken : Request :=
  { method := "GET", path := "/api/v1/products/123", rawQuery := ""
    headers := [("Authorization", "Bearer abc")]
    clientIP := "203.0.113.9", userAgent := "curl/8.5.0" }

/-- A protected-path request carrying no Authorization header at all. -/
def reqNoAuth : Request :=
  { method := "POST", path := "/api/v1/products", rawQuery := ""
    headers := [("Content-Type", "application/json")]
    clientIP := "203.0.113.11", userAgent := "curl/8.5.0" }

/-- A protected-path request whose Authorization header holds a single
part instead of the two-part Bearer form. -/
def reqOnePartAuth : Request :=
  { method := "GET", path := "/api/v1/products", rawQuery := ""
    headers := [("Authorization", "Token")]
    clientIP := "203.0.113.12", userAgent := "curl/8.5.0" }

/-- A request to a path that is registered only for other methods. -/
def reqDeleteHealth : Request :=
  { method := "DELETE", path := "/health", rawQuery := "", headers := []
    clientIP := "192.0.2.9", userAgent := "probe" }

/-- A request to a path no route binding matches. -/
def reqNope : Request :=
  { method := "GET", path := "/nope", rawQuery := "", headers := []
    clientIP := "192.0.2.10", userAgent := "probe" }

/-- A concrete 16-byte random draw for the UUID generator. -/
def uuidBytesA : List Nat := List.replicate 16 0

/-- A second 16-byte random draw differing from the first in its first
byte, which the version-and-variant masking leaves untouched. -/
def uuidBytesB : List Nat := 1 :: List.replicate 15 0

/-- C10: validateToken never reaches the Go slice expression out of
bounds: for every input the result is not the panic marker, and when a
user id is produced the token already passed the length check, so its
length is at least 10, the 8-character prefix slice is in bounds and
the id is user- followed by that prefix. -/
theorem validateToken_never_panics :
    ∀ t s : String,
      validateToken t s ≠ .panicked
      ∧ (∀ u, validateToken t s = .ok u →
          10 ≤ t.length ∧ 8 ≤ t.length ∧ u = "user-" ++ takeChars 8 t) := by
  intro t s
  unfold validateToken
  split_ifs with h1 h2 h3
  · exact ⟨by simp, by simp⟩
  · exact ⟨by simp, by simp⟩
  · refine ⟨by simp, ?_⟩
    intro u hu
    refine ⟨by omega, by omega, ?_⟩
    simpa using hu.symm
  · omega

/-- C1: evaluation of the panic guard at a request whose downstream
handler panics before writing any bytes.  The guard recovers the fault
and emits the error record with fault, stack, path, method, client
address and user agent, and the server answers normally, but the 500
envelope is never written: the gin writer reports its default status
200, never 0, so the status-equals-0 test of the source is always
false and the client receives an empty 200 response instead of the
internal-server-error envelope. -/
theorem panic_guard_envelope_never_written :
    respStatus (gatewayChain "req-c1" 3 "jwt-secret" panickingHandler reqHealth) = some 200
    ∧ respWritten (gatewayChain "req-c1" 3 "jwt-secret" panickingHandler reqHealth) = some false
    ∧ respBody (gatewayChain "req-c1" 3 "jwt-secret" panickingHandler reqHealth) = some []
    ∧ respBody (gatewayChain "req-c1" 3 "jwt-secret" panickingHandler reqHealth)
        ≠ some internalErrorBody
    ∧ respLogs (gatewayChain "req-c1" 3 "jwt-secret" panickingHandler reqHealth)
        = some [⟨.error,
            [("error", .s "runtime error: invalid memory address or nil pointer dereference"),
             ("stack", .s debugStack), ("path", .s "/health"), ("method", .s "GET"),
             ("client_ip", .s "198.51.100.2"), ("user_agent", .s "Mozilla/5.0")],
            "Panic recovered"⟩] := by
  decide

/-- C6: evaluation of the router fallbacks.  The unmatched-path half of
the claim holds: GET /nope yields the 404 envelope naming the path.
The wrong-method half fails: /health is a registered pattern without a
DELETE binding, yet the dispatcher answers with the 404 envelope and no
method field, because gin.New() leaves HandleMethodNotAllowed false and
main never enables it, so the registered NoMethod handler is dead. -/
theorem method_not_allowed_handler_dead :
    routeTable.any (fun e => pathMatches e.2 "/health") = true
    ∧ routeTable.any (fun e => e.1 == "DELETE" && pathMatches e.2 "/health") = false
    ∧ HandleMethodNotAllowed = false
    ∧ routerDispatch reqDeleteHealth idHandler initState
        = .ok (cJSON 404 (notFoundBody "/health") initState)
    ∧ (cJSON 404 (notFoundBody "/health") initState).writerStatus ≠ 405
    ∧ lookupJ (notFoundBody "/health") "method" = none
    ∧ routerDispatch reqNope idHandler initState
        = .ok (cJSON 404 (notFoundBody "/nope") initState)
    ∧ lookupJ (notFoundBody "/nope") "path" = some (.s "/nope") := by
  decide

/-- C8: every gateway-originated error response is an envelope whose
code field equals the HTTP status, the status is drawn from the fixed
taxonomy 401, 404, 405, 500, and the faults carried by the recovery and
upstream-failure sites never reach the body: the body is the same for
every fault value, and ErrorResponse is insensitive to the wrapped
internal error and the captured stack trace. -/
theorem gateway_error_envelope_invariant :
    ∀ g : GatewayError,
      ((gwErrorResponse g).1 = 401 ∨ (gwErrorResponse g).1 = 404
        ∨ (gwErrorResponse g).1 = 405 ∨ (gwErrorResponse g).1 = 500)
      ∧ lookupJ (gwErrorResponse g).2 "code" = some (.n (gwErrorResponse g).1)
      ∧ (∀ f1 f2, gwErrorResponse (.panicRecovered f1) = gwErrorResponse (.panicRecovered f2))
      ∧ (∀ e1 e2, gwErrorResponse (.upstreamFailure e1) = gwErrorResponse (.upstreamFailure e2))
      ∧ (∀ (a : AppError) (i : Option String) (tr : List String),
          ErrorResponse (.app { a with internal := i, stackTrace := tr })
            = ErrorResponse (.app a)) := by
  intro g
  refine ⟨?_, ?_, ?_, ?_, ?_⟩
  · cases g <;>
      simp [gwErrorResponse, ErrorResponse, NewInternalError]
  · cases g <;>
      simp [gwErrorResponse, ErrorResponse, NewInternalError, lookupJ,
        authHeaderRequiredBody, authFormatBody, authInvalidTokenBody,
        notFoundBody, methodNotAllowedBody, internalErrorBody, List.find?]
  · intro f1 f2; rfl
  · intro e1 e2; rfl
  · intro a i tr; simp [ErrorResponse]

/-- C9 counterexample: a request whose downstream handler panics is
finalized normally by the panic guard, yet the access logger emits no
record at all for it, because the guard sits outside the logger and the
unwinding fault skips the code after the delegation point: the claim
that every request produces exactly one access record is false on this
input. -/
theorem access_log_skipped_on_panic :
    respStatus (gatewayChain "req-c9" 7 "jwt-secret" panickingHandler reqProducts) = some 200
    ∧ (respLogs (gatewayChain "req-c9" 7 "jwt-secret" panickingHandler reqProducts)).map
        (fun l => l.filter (fun rec => rec.msg == "HTTP request")) = some []
    ∧ (respLogs (gatewayChain "req-c9" 7 "jwt-secret" panickingHandler reqProducts)).map
        List.length = some 1 := by
  decide

/-- C4 counterexample: a protected-path request whose Authorization
header is present with an empty value.  The header does not have the
two-part Bearer form, so by the claim the response should carry the
invalid-format message, but the source cannot distinguish a present
empty header from an absent one and answers with the
header-required envelope instead. -/
theorem auth_empty_header_value_counterexample :
    ("Authorization", "") ∈ reqEmptyAuth.headers
    ∧ (stringsSplit (getHeader reqEmptyAuth "Authorization") ' ').length ≠ 2
    ∧ respStatus (gatewayChain "req-c4" 0 "jwt-secret" idHandler reqEmptyAuth) = some 401
    ∧ respBody (gatewayChain "req-c4" 0 "jwt-secret" idHandler reqEmptyAuth)
        = some authHeaderRequiredBody
    ∧ authHeaderRequiredBody ≠ authFormatBody := by
  decide

/-- C2: whenever the outbound leg fails at transport level, upstream
unreachable, the configured timeout exceeded, or a silent upstream, the
gateway responds 500 with the service-unavailable envelope, the
outbound leg never takes longer than the configured timeout, an
error record naming the upstream URL, method, path and the underlying
fault is emitted, and the client body is the fixed envelope, the same
for every fault, so the raw transport error never reaches the client. -/
theorem proxy_failure_normalized (targetURL : String) (timeout : Nat)
    (r : Request) (ub : UpstreamBehavior)
    (hfail : (∃ e, ub = .unreachable e)
      ∨ (∃ resp d, ub = .respond resp d ∧ timeout < d)
      ∨ ub = .hang) :
    (ServiceProxyHandler targetURL timeout r ub).status = 500
    ∧ (ServiceProxyHandler targetURL timeout r ub).body
        = .envelope [("error", .s "Service unavailable"), ("code", .n 500)]
    ∧ (ServiceProxyHandler targetURL timeout r ub).elapsed ≤ timeout
    ∧ ∃ emsg,
        (⟨.error,
          [("error", .s emsg), ("url", .s targetURL), ("method", .s r.method),
           ("path", .s r.path)], "Application error"⟩ : LogRecord)
          ∈ (ServiceProxyHandler targetURL timeout r ub).logs := by
  rcases hfail with ⟨e, rfl⟩ | ⟨resp, d, rfl, hd⟩ | rfl
  · refine ⟨rfl, rfl, Nat.zero_le timeout, ⟨e, ?_⟩⟩
    simp [ServiceProxyHandler, serviceProxyCore, proxyErrorHandler,
      ErrorResponse, NewInternalError]
  · have hd2 : ¬ d ≤ timeout := by omega
    refine ⟨?_, ?_, ?_, ⟨"context deadline exceeded", ?_⟩⟩ <;>
      simp [ServiceProxyHandler, serviceProxyCore, proxyErrorHandler,
        ErrorResponse, NewInternalError, hd2]
  · refine ⟨rfl, rfl, Nat.le_refl timeout, ⟨"context deadline exceeded", ?_⟩⟩
    simp [ServiceProxyHandler, serviceProxyCore, proxyErrorHandler,
      ErrorResponse, NewInternalError]

/-- C2 witness: a concrete unreachable upstream. -/
theorem proxy_failure_normalized_witness :
    (∃ e, (UpstreamBehavior.unreachable "dial tcp 127.0.0.1:8081: connect: connection refused")
        = UpstreamBehavior.unreachable e)
    ∧ ((ServiceProxyHandler "http://localhost:8081" 5 reqHealth
          (.unreachable "dial tcp 127.0.0.1:8081: connect: connection refused")).status = 500
      ∧ (ServiceProxyHandler "http://localhost:8081" 5 reqHealth
          (.unreachable "dial tcp 127.0.0.1:8081: connect: connection refused")).body
          = .envelope [("error", .s "Service unavailable"), ("code", .n 500)]
      ∧ (ServiceProxyHandler "http://localhost:8081" 5 reqHealth
          (.unreachable "dial tcp 127.0.0.1:8081: connect: connection refused")).elapsed ≤ 5
      ∧ ∃ emsg,
          (⟨.error,
            [("error", .s emsg), ("url", .s "http://localhost:8081"),
             ("method", .s reqHealth.method), ("path", .s reqHealth.path)],
            "Application error"⟩ : LogRecord)
            ∈ (ServiceProxyHandler "http://localhost:8081" 5 reqHealth
                (.unreachable "dial tcp 127.0.0.1:8081: connect: connection refused")).logs) :=
  ⟨⟨_, rfl⟩,
    proxy_failure_normalized "http://localhost:8081" 5 reqHealth _ (Or.inl ⟨_, rfl⟩)⟩

/-- C3: an upstream response arriving within the timeout is relayed
with its status and body unchanged, never replaced by a gateway
envelope; the info record is emitted for it, and when the status is at
least 400 an additional error record captures the body, which is
nevertheless still available to the client afterwards. -/
theorem proxy_relays_upstream_response (targetURL : String) (timeout : Nat)
    (r : Request) (resp : HResponse) (delay : Nat) (content : String)
    (hd : delay ≤ timeout) (hb : resp.body = .avail content) :
    (ServiceProxyHandler targetURL timeout r (.respond resp delay)).status = resp.status
    ∧ (ServiceProxyHandler targetURL timeout r (.respond resp delay)).body
        = .relay (.avail content)
    ∧ (∀ obj, (ServiceProxyHandler targetURL timeout r (.respond resp delay)).body
        ≠ .envelope obj)
    ∧ (⟨.info,
        [("url", .s targetURL), ("method", .s r.method), ("path", .s r.path),
         ("status", .n resp.status), ("status_text", .s resp.statusText)],
        "Service response"⟩ : LogRecord)
        ∈ (ServiceProxyHandler targetURL timeout r (.respond resp delay)).logs
    ∧ (400 ≤ resp.status →
        (⟨.error,
          [("error", .s ("service returned error: " ++ resp.statusText)),
           ("url", .s targetURL), ("method", .s r.method), ("path", .s r.path),
           ("status_code", .n resp.status), ("response_body", .s content)],
          "Application error"⟩ : LogRecord)
          ∈ (ServiceProxyHandler targetURL timeout r (.respond resp delay)).logs) := by
  by_cases hs : 400 ≤ resp.status <;>
    simp [ServiceProxyHandler, serviceProxyCore, ModifyResponse, hd, hs, hb]

/-- C3 witness: the spec scenario of an upstream 503 whose body is
relayed intact after being inspected for the error log. -/
theorem proxy_relays_upstream_response_witness :
    (1 ≤ 5
      ∧ (HResponse.mk 503 "503 Service Unavailable" (.avail "upstream down")).body
          = .avail "upstream down")
    ∧ ((ServiceProxyHandler "http://localhost:8082" 5 reqProducts
          (.respond ⟨503, "503 Service Unavailable", .avail "upstream down"⟩ 1)).status
        = (HResponse.mk 503 "503 Service Unavailable" (.avail "upstream down")).status
      ∧ (ServiceProxyHandler "http://localhost:8082" 5 reqProducts
          (.respond ⟨503, "503 Service Unavailable", .avail "upstream down"⟩ 1)).body
          = .relay (.avail "upstream down")
      ∧ (∀ obj, (ServiceProxyHandler "http://localhost:8082" 5 reqProducts
          (.respond ⟨503, "503 Service Unavailable", .avail "upstream down"⟩ 1)).body
          ≠ .envelope obj)
      ∧ (⟨.info,
          [("url", .s "http://localhost:8082"), ("method", .s reqProducts.method),
           ("path", .s reqProducts.path), ("status", .n 503),
           ("status_text", .s "503 Service Unavailable")],
          "Service response"⟩ : LogRecord)
          ∈ (ServiceProxyHandler "http://localhost:8082" 5 reqProducts
              (.respond ⟨503, "503 Service Unavailable", .avail "upstream down"⟩ 1)).logs
      ∧ (400 ≤ 503 →
          (⟨.error,
            [("error", .s ("service returned error: " ++ "503 Service Unavailable")),
             ("url", .s "http://localhost:8082"), ("method", .s reqProducts.method),
             ("path", .s reqProducts.path), ("status_code", .n 503),
             ("response_body", .s "upstream down")],
            "Application error"⟩ : LogRecord)
            ∈ (ServiceProxyHandler "http://localhost:8082" 5 reqProducts
                (.respond ⟨503, "503 Service Unavailable", .avail "upstream down"⟩ 1)).logs)) :=
  ⟨⟨by decide, rfl⟩,
    proxy_relays_upstream_response "http://localhost:8082" 5 reqProducts
      ⟨503, "503 Service Unavailable", .avail "upstream down"⟩ 1 "upstream down"
      (by decide) rfl⟩

/-- C5: on a protected path with a header of the exact two-part Bearer
form, an empty or too-short token is answered with the 401
invalid-or-expired-token envelope after a warning record naming the
path, independently of the downstream handler, which is therefore
never invoked; any other token is admitted and the chain continues
with the derived principal id user- plus the 8-character token prefix
stored in the request context. -/
theorem auth_gate_token_validation (jwtSecret : String) (r : Request) (t : String)
    (next : Handler) (st : GWState)
    (hpub : isPublicEndpoint r.path = false)
    (hsplit : stringsSplit (getHeader r "Authorization") ' ' = ["Bearer", t]) :
    ((t = "" ∨ t.length < 10) →
      AuthMiddleware jwtSecret r next st
        = .ok (cJSON 401 authInvalidTokenBody
            (addLog .warn [("path", .s r.path)] "Invalid token" st))
      ∧ ∀ next2 : Handler,
          AuthMiddleware jwtSecret r next2 st = AuthMiddleware jwtSecret r next st)
    ∧ (t ≠ "" → 10 ≤ t.length →
      AuthMiddleware jwtSecret r next st
        = next (cSet "user_id" ("user-" ++ takeChars 8 t) st)) := by
  have hne : getHeader r "Authorization" ≠ "" := by
    intro h
    rw [h] at hsplit
    simp [stringsSplit, splitChar] at hsplit
  constructor
  · intro ht
    have hv : ∃ m, validateToken t jwtSecret = .err m := by
      by_cases ht0 : t = ""
      · subst ht0
        exact ⟨_, rfl⟩
      · have hlen : t.length < 10 := by
          rcases ht with rfl | hlen
          · exact absurd rfl ht0
          · exact hlen
        refine ⟨(NewUnauthorizedError "Invalid token format").message, ?_⟩
        unfold validateToken
        rw [if_neg ht0, if_pos hlen]
    obtain ⟨m, hv⟩ := hv
    constructor
    · simp [AuthMiddleware, hpub, hne, hsplit, hv]
    · intro next2
      simp [AuthMiddleware, hpub, hne, hsplit, hv]
  · intro ht0 hlen
    have hv : validateToken t jwtSecret = .ok ("user-" ++ takeChars 8 t) := by
      unfold validateToken
      rw [if_neg ht0, if_neg (by omega), if_pos (by omega)]
    simp [AuthMiddleware, hpub, hne, hsplit, hv]

/-- C5 witness: the spec scenario of the too-short token abc on a
protected product path. -/
theorem auth_gate_token_validation_witness :
    (isPublicEndpoint reqShortToken.path = false
      ∧ stringsSplit (getHeader reqShortToken "Authorization") ' ' = ["Bearer", "abc"])
    ∧ ((("abc" : String) = "" ∨ ("abc" : String).length < 10) →
        AuthMiddleware "jwt-secret" reqShortToken idHandler initState
          = .ok (cJSON 401 authInvalidTokenBody
              (addLog .warn [("path", .s reqShortToken.path)] "Invalid token" initState))
        ∧ ∀ next2 : Handler,
            AuthMiddleware "jwt-secret" reqShortToken next2 initState
              = AuthMiddleware "jwt-secret" reqShortToken idHandler initState)
    ∧ (("abc" : String) ≠ "" → 10 ≤ ("abc" : String).length →
        AuthMiddleware "jwt-secret" reqShortToken idHandler initState
          = idHandler (cSet "user_id" ("user-" ++ takeChars 8 "abc") initState)) :=
  ⟨⟨by decide, by decide⟩,
    (auth_gate_token_validation "jwt-secret" reqShortToken "abc" idHandler initState
      (by decide) (by decide)).1,
    (auth_gate_token_validation "jwt-secret" reqShortToken "abc" idHandler initState
      (by decide) (by decide)).2⟩

/-- C4 amended: on a protected path, an absent Authorization header and
equally a header whose value is the empty string are answered with the
401 header-required envelope, and a non-empty header that does not
split into exactly Bearer and a token is answered with the 401
invalid-format envelope; in both cases the whole chain result is the
same for every downstream handler, so the upstream proxy is never
invoked. -/
theorem auth_malformed_header_rejected (genId : String) (elapsed : Nat)
    (jwtSecret : String) (r : Request) (u u2 : Handler)
    (hpub : isPublicEndpoint r.path = false) :
    (getHeader r "Authorization" = "" →
      respStatus (gatewayChain genId elapsed jwtSecret u r) = some 401
      ∧ respBody (gatewayChain genId elapsed jwtSecret u r) = some authHeaderRequiredBody
      ∧ gatewayChain genId elapsed jwtSecret u r = gatewayChain genId elapsed jwtSecret u2 r)
    ∧ (getHeader r "Authorization" ≠ "" →
      ((stringsSplit (getHeader r "Authorization") ' ').length != 2
        || (stringsSplit (getHeader r "Authorization") ' ').getD 0 "" != "Bearer") = true →
      respStatus (gatewayChain genId elapsed jwtSecret u r) = some 401
      ∧ respBody (gatewayChain genId elapsed jwtSecret u r) = some authFormatBody
      ∧ gatewayChain genId elapsed jwtSecret u r = gatewayChain genId elapsed jwtSecret u2 r) := by
  constructor
  · intro h
    refine ⟨?_, ?_, ?_⟩ <;>
      simp [gatewayChain, RecoveryMiddleware, RequestIDMiddleware, GinLogger,
        AuthMiddleware, hpub, h, respStatus, respBody, cJSON, addLog]
  · intro h hbool
    have hprop : ¬(stringsSplit (getHeader r "Authorization") ' ').length = 2
        ∨ ¬(stringsSplit (getHeader r "Authorization") ' ')[0]?.getD "" = "Bearer" := by
      simpa [Bool.or_eq_true, bne_iff_ne, List.getD_eq_getElem?_getD] using hbool
    refine ⟨?_, ?_, ?_⟩ <;>
      simp [gatewayChain, RecoveryMiddleware, RequestIDMiddleware, GinLogger,
        AuthMiddleware, hpub, h, hprop, respStatus, respBody, cJSON, addLog]

/-- C4 witness: a protected request with no Authorization header at
all, and a protected request whose header is the one-part value Token. -/
theorem auth_malformed_header_rejected_witness :
    (isPublicEndpoint reqNoAuth.path = false
      ∧ isPublicEndpoint reqOnePartAuth.path = false)
    ∧ (getHeader reqNoAuth "Authorization" = "" →
        respStatus (gatewayChain "req-w4" 1 "jwt-secret" idHandler reqNoAuth) = some 401
        ∧ respBody (gatewayChain "req-w4" 1 "jwt-secret" idHandler reqNoAuth)
            = some authHeaderRequiredBody
        ∧ gatewayChain "req-w4" 1 "jwt-secret" idHandler reqNoAuth
            = gatewayChain "req-w4" 1 "jwt-secret" panickingHandler reqNoAuth)
    ∧ (getHeader reqOnePartAuth "Authorization" ≠ "" →
        ((stringsSplit (getHeader reqOnePartAuth "Authorization") ' ').length != 2
          || (stringsSplit (getHeader reqOnePartAuth "Authorization") ' ').getD 0 "" != "Bearer") = true →
        respStatus (gatewayChain "req-w4" 1 "jwt-secret" idHandler reqOnePartAuth) = some 401
        ∧ respBody (gatewayChain "req-w4" 1 "jwt-secret" idHandler reqOnePartAuth)
            = some authFormatBody
        ∧ gatewayChain "req-w4" 1 "jwt-secret" idHandler reqOnePartAuth
            = gatewayChain "req-w4" 1 "jwt-secret" panickingHandler reqOnePartAuth) :=
  ⟨⟨by decide, by decide⟩,
    (auth_malformed_header_rejected "req-w4" 1 "jwt-secret" reqNoAuth idHandler
      panickingHandler (by decide)).1,
    (auth_malformed_header_rejected "req-w4" 1 "jwt-secret" reqOnePartAuth idHandler
      panickingHandler (by decide)).2⟩

/-- C9 amended: for every request whose downstream handling completes
without a panic, the access logger appends exactly one record, built
from the final writer status as the access record with method, path
plus query, status, client address, user agent, latency and correlation
id; its severity is error exactly when the final status is at least
400 and info otherwise. -/
theorem access_logger_one_record (elapsed : Nat) (r : Request) (next : Handler)
    (st st1 : GWState) (h : next st = .ok st1) :
    GinLogger elapsed r next st
      = .ok { st1 with logs := st1.logs ++ [accessRecord elapsed r st1] }
    ∧ respLogs (GinLogger elapsed r next st)
        = some (st1.logs ++ [accessRecord elapsed r st1])
    ∧ ((accessRecord elapsed r st1).severity = .error ↔ 400 ≤ st1.writerStatus)
    ∧ (accessRecord elapsed r st1).msg = "HTTP request" := by
  refine ⟨?_, ?_, ?_, rfl⟩
  · simp [GinLogger, h]
  · simp [GinLogger, h, respLogs]
  · unfold accessRecord
    split_ifs with hs <;> simp [hs]

/-- C9 witness: a concrete downstream handler that completes normally. -/
theorem access_logger_one_record_witness :
    idHandler initState = .ok initState
    ∧ (GinLogger 5 reqHealth idHandler initState
        = .ok { initState with logs := initState.logs ++ [accessRecord 5 reqHealth initState] }
      ∧ respLogs (GinLogger 5 reqHealth idHandler initState)
          = some (initState.logs ++ [accessRecord 5 reqHealth initState])
      ∧ ((accessRecord 5 reqHealth initState).severity = .error ↔ 400 ≤ initState.writerStatus)
      ∧ (accessRecord 5 reqHealth initState).msg = "HTTP request") :=
  ⟨rfl, access_logger_one_record 5 reqHealth idHandler initState initState rfl⟩

theorem hexChar_injOn : ∀ d1 < 16, ∀ d2 < 16, hexChar d1 = hexChar d2 → d1 = d2 := by
  decide

theorem hexChar_ne_dash : ∀ d < 16, hexChar d ≠ '-' := by
  decide

theorem uuidV4OfBytes_lt (bs : List Nat) (h : ∀ x ∈ bs, x < 256) :
    ∀ x ∈ uuidV4OfBytes bs, x < 256 := by
  intro x hx
  unfold uuidV4OfBytes at hx
  rcases List.mem_or_eq_of_mem_set hx with hx1 | rfl
  · rcases List.mem_or_eq_of_mem_set hx1 with hx2 | rfl
    · exact h x hx2
    · omega
  · omega

theorem mem_bytesToNibbles_lt (bs : List Nat) (h : ∀ b ∈ bs, b < 256) :
    ∀ x ∈ bytesToNibbles bs, x < 16 := by
  intro x hx
  unfold bytesToNibbles at hx
  rw [List.mem_flatMap] at hx
  obtain ⟨b, hb, hxb⟩ := hx
  have hblt := h b hb
  simp at hxb
  rcases hxb with rfl | rfl
  · omega
  · omega

theorem bytesToNibbles_inj : ∀ b1 b2 : List Nat, (∀ x ∈ b1, x < 256) →
    (∀ x ∈ b2, x < 256) → bytesToNibbles b1 = bytesToNibbles b2 → b1 = b2 := by
  intro b1
  induction b1 with
  | nil =>
    intro b2 _ _ h
    cases b2 with
    | nil => rfl
    | cons c cs => simp [bytesToNibbles] at h
  | cons b bs ih =>
    intro b2 h1 h2 h
    cases b2 with
    | nil => simp [bytesToNibbles] at h
    | cons c cs =>
      simp only [bytesToNibbles, List.flatMap_cons, List.cons_append,
        List.nil_append, List.cons.injEq] at h
      obtain ⟨h16, hmod, hrest⟩ := h
      have hb := h1 b (by simp)
      have hc := h2 c (by simp)
      have hbc : b = c := by omega
      subst hbc
      rw [ih cs (fun x hx => h1 x (by simp [hx])) (fun x hx => h2 x (by simp [hx]))
        (by simpa [bytesToNibbles] using hrest)]

theorem map_hexChar_inj : ∀ l1 l2 : List Nat, (∀ x ∈ l1, x < 16) →
    (∀ x ∈ l2, x < 16) → l1.map hexChar = l2.map hexChar → l1 = l2 := by
  intro l1
  induction l1 with
  | nil =>
    intro l2 _ _ h
    cases l2 with
    | nil => rfl
    | cons b m => simp at h
  | cons a l ih =>
    intro l2 h1 h2 h
    cases l2 with
    | nil => simp at h
    | cons b m =>
      simp only [List.map_cons, List.cons.injEq] at h
      obtain ⟨hab, hlm⟩ := h
      have hab2 := hexChar_injOn a (h1 a (by simp)) b (h2 b (by simp)) hab
      subst hab2
      rw [ih m (fun x hx => h1 x (by simp [hx])) (fun x hx => h2 x (by simp [hx])) hlm]

theorem take_append_drop_drop (n m k : Nat) (hk : n + m = k) (l : List Char) :
    (l.drop n).take m ++ l.drop k = l.drop n := by
  subst hk
  rw [← List.drop_drop, List.take_append_drop]

theorem take_drop_chunks (cs : List Char) :
    cs.take 8 ++ ((cs.drop 8).take 4 ++ ((cs.drop 12).take 4
      ++ ((cs.drop 16).take 4 ++ cs.drop 20))) = cs := by
  rw [take_append_drop_drop 16 4 20 (by norm_num) cs,
    take_append_drop_drop 12 4 16 (by norm_num) cs,
    take_append_drop_drop 8 4 12 (by norm_num) cs,
    List.take_append_drop]

theorem filter_insertDashes (cs : List Char) (h : ∀ c ∈ cs, c ≠ '-') :
    (insertDashes cs).filter (fun c => c != '-') = cs := by
  have hseg : ∀ l : List Char, (∀ c ∈ l, c ≠ '-') →
      l.filter (fun c => c != '-') = l := by
    intro l hl
    rw [List.filter_eq_self]
    intro a ha
    simpa using hl a ha
  have h8 := hseg _ (fun c hc => h c (List.take_subset 8 cs hc))
  have hd8 := hseg ((cs.drop 8).take 4)
    (fun c hc => h c (List.drop_subset 8 cs (List.take_subset 4 (cs.drop 8) hc)))
  have hd12 := hseg ((cs.drop 12).take 4)
    (fun c hc => h c (List.drop_subset 12 cs (List.take_subset 4 (cs.drop 12) hc)))
  have hd16 := hseg ((cs.drop 16).take 4)
    (fun c hc => h c (List.drop_subset 16 cs (List.take_subset 4 (cs.drop 16) hc)))
  have hd20 := hseg (cs.drop 20) (fun c hc => h c (List.drop_subset 20 cs hc))
  unfold insertDashes
  simp only [List.filter_append, List.filter_cons]
  norm_num
  rw [h8, hd8, hd12, hd16, hd20]
  exact take_drop_chunks cs

theorem uuidString_injective (b1 b2 : List Nat)
    (h1 : ∀ x ∈ b1, x < 256) (h2 : ∀ x ∈ b2, x < 256)
    (hne : uuidV4OfBytes b1 ≠ uuidV4OfBytes b2) :
    uuidString b1 ≠ uuidString b2 := by
  intro heq
  apply hne
  have hdata : insertDashes ((bytesToNibbles (uuidV4OfBytes b1)).map hexChar)
      = insertDashes ((bytesToNibbles (uuidV4OfBytes b2)).map hexChar) := by
    have hd := congrArg String.data heq
    simpa [uuidString] using hd
  have hv1 := uuidV4OfBytes_lt b1 h1
  have hv2 := uuidV4OfBytes_lt b2 h2
  have hn1 := mem_bytesToNibbles_lt _ hv1
  have hn2 := mem_bytesToNibbles_lt _ hv2
  have hc1 : ∀ c ∈ (bytesToNibbles (uuidV4OfBytes b1)).map hexChar, c ≠ '-' := by
    intro c hc
    rw [List.mem_map] at hc
    obtain ⟨x, hx, rfl⟩ := hc
    exact hexChar_ne_dash x (hn1 x hx)
  have hc2 : ∀ c ∈ (bytesToNibbles (uuidV4OfBytes b2)).map hexChar, c ≠ '-' := by
    intro c hc
    rw [List.mem_map] at hc
    obtain ⟨x, hx, rfl⟩ := hc
    exact hexChar_ne_dash x (hn2 x hx)
  have hmap : (bytesToNibbles (uuidV4OfBytes b1)).map hexChar
      = (bytesToNibbles (uuidV4OfBytes b2)).map hexChar := by
    rw [← filter_insertDashes _ hc1, ← filter_insertDashes _ hc2, hdata]
  exact bytesToNibbles_inj _ _ hv1 hv2 (map_hexChar_inj _ _ hn1 hn2 hmap)

theorem uuidString_ne_empty (bs : List Nat) : uuidString bs ≠ "" := by
  intro h
  have hd := congrArg String.data h
  simp [uuidString, insertDashes] at hd

/-- C7: the request id middleware stamps both the request context key
and the response header with the inbound correlation id when one is
supplied non-empty, and otherwise with the freshly generated UUID
string, which is never empty; and generated ids of two requests differ
whenever the version-and-variant-masked random bytes behind them
differ, the canonical dashed hex encoding being injective. -/
theorem request_id_stamping (r1 : Request) (b1 b2 : List Nat)
    (next : Handler) (st : GWState)
    (hv1 : ∀ x ∈ b1, x < 256) (hv2 : ∀ x ∈ b2, x < 256)
    (hne : uuidV4OfBytes b1 ≠ uuidV4OfBytes b2)
    (hempty : getHeader r1 "X-Request-ID" = "") :
    RequestIDMiddleware (uuidString b1) r1 next st
      = next (setHeaderResp "X-Request-ID" (uuidString b1)
          (cSet "request_id" (uuidString b1) st))
    ∧ respHeaderGet (setHeaderResp "X-Request-ID" (uuidString b1)
        (cSet "request_id" (uuidString b1) st)) "X-Request-ID" = uuidString b1
    ∧ ctxGetString (setHeaderResp "X-Request-ID" (uuidString b1)
        (cSet "request_id" (uuidString b1) st)) "request_id" = uuidString b1
    ∧ uuidString b1 ≠ ""
    ∧ uuidString b1 ≠ uuidString b2
    ∧ (∀ (r2 : Request) (next2 : Handler) (st2 : GWState),
        getHeader r2 "X-Request-ID" ≠ "" →
        RequestIDMiddleware (uuidString b2) r2 next2 st2
          = next2 (setHeaderResp "X-Request-ID" (getHeader r2 "X-Request-ID")
              (cSet "request_id" (getHeader r2 "X-Request-ID") st2))) := by
  refine ⟨?_, ?_, ?_, uuidString_ne_empty b1,
    uuidString_injective b1 b2 hv1 hv2 hne, ?_⟩
  · simp [RequestIDMiddleware, hempty]
  · simp [respHeaderGet, setHeaderResp, cSet]
  · simp [ctxGetString, setHeaderResp, cSet]
  · intro r2 next2 st2 hne2
    simp [RequestIDMiddleware, hne2]

/-- C7 witness: two concrete random byte draws whose masked UUIDs
differ, applied to a request without an inbound correlation header. -/
theorem request_id_stamping_witness :
    ((∀ x ∈ uuidBytesA, x < 256) ∧ (∀ x ∈ uuidBytesB, x < 256)
      ∧ uuidV4OfBytes uuidBytesA ≠ uuidV4OfBytes uuidBytesB
      ∧ getHeader reqHealth "X-Request-ID" = "")
    ∧ (RequestIDMiddleware (uuidString uuidBytesA) reqHealth idHandler initState
        = idHandler (setHeaderResp "X-Request-ID" (uuidString uuidBytesA)
            (cSet "request_id" (uuidString uuidBytesA) initState))
      ∧ respHeaderGet (setHeaderResp "X-Request-ID" (uuidString uuidBytesA)
          (cSet "request_id" (uuidString uuidBytesA) initState)) "X-Request-ID"
          = uuidString uuidBytesA
      ∧ ctxGetString (setHeaderResp "X-Request-ID" (uuidString uuidBytesA)
          (cSet "request_id" (uuidString uuidBytesA) initState)) "request_id"
          = uuidString uuidBytesA
      ∧ uuidString uuidBytesA ≠ ""
      ∧ uuidString uuidBytesA ≠ uuidString uuidBytesB
      ∧ (∀ (r2 : Request) (next2 : Handler) (st2 : GWState),
          getHeader r2 "X-Request-ID" ≠ "" →
          RequestIDMiddleware (uuidString uuidBytesB) r2 next2 st2
            = next2 (setHeaderResp "X-Request-ID" (getHeader r2 "X-Request-ID")
                (cSet "request_id" (getHeader r2 "X-Request-ID") st2)))) :=
  ⟨⟨by decide, by decide, by decide, by decide⟩,
    request_id_stamping reqHealth uuidBytesA uuidBytesB idHandler initState
      (by decide) (by decide) (by decide) (by decide)⟩

end GoShopping
